import Mathlib

/-!
Verification development for the LiDARProcessor sensor-ingestion pipeline.

The definitions below are a shallow embedding of the C++ sources
`src/reader/src/VelodynePCAPReader.cpp` and
`src/velodyne/src/sensors/LidarFactory.cpp` (plus the `VDYNE` data model
header).  Machine integers are modelled as `Nat` with explicit `% 2^w`
reductions exactly where the C code truncates; the byte stream of the
capture file is modelled as a list of records (one record header plus the
packet body that follows it); `float` arithmetic of the geometry code is
idealised over an ordered field, with the trigonometric functions passed
in as parameters so that the definitions stay executable and the theorems
can instantiate them with `Real.cos` / `Real.sin`.
-/

/-- Update of a function modelling an in-place array store `f[i] = v`. -/
def upd {α : Type} (f : Nat → α) (i : Nat) (v : α) : Nat → α :=
  fun j => if j = i then v else f j

/-! ### Constants from VelodynePCAPReader.cpp -/

/-- `static unsigned int dataPacketLength = 1206 + 42`. -/
def dataPacketLength : Nat := 1206 + 42

/-- `static unsigned int gpsPacketLength = 512 + 42`. -/
def gpsPacketLength : Nat := 512 + 42

/-- Return codes of the reader (`GLSE_*` in VelodynePCAPReader.hpp). -/
def GLSE_SUCCESS : Int := 0

/-- Return code `GLSE_EOF` (declared in the header, never produced by the code). -/
def GLSE_EOF : Int := 1

/-- Return code for file I/O errors. -/
def GLSE_FILEIOERR : Int := 2

/-- Return code for an unrecognized capture file format. -/
def GLSE_FILEFORMAT_ERROR : Int := 3

/-! ### Data model (VDYNE namespace of LidarScan.hpp) -/

/-- `LiDARHardware_t`. -/
inductive LiDARHardware where
  | VLP16
  | HDL32
  | VLP32C
  | unknown
deriving DecidableEq

/-- `LiDARConfiguration_t`. -/
structure LiDARConfiguration where
  blocksPerScan : Nat
  firingSequencesPerBlock : Nat
  numBeams : Nat
deriving DecidableEq

/-- `const LiDARConfiguration_t VLP16_Hardware = {76, 24, 16}`. -/
def VLP16_Hardware : LiDARConfiguration := ⟨76, 24, 16⟩

/-- `const LiDARConfiguration_t HDL32_Hardware = {181, 12, 32}`. -/
def HDL32_Hardware : LiDARConfiguration := ⟨181, 12, 32⟩

/-- `const LiDARConfiguration_t VLP32C_Hardware = {151, 12, 32}`. -/
def VLP32C_Hardware : LiDARConfiguration := ⟨151, 12, 32⟩

/-- `data_point_t`: one laser return, a 16-bit range tick and an 8-bit
reflectivity byte (modelled as `Nat`). -/
structure DataPoint where
  range : Nat
  refl : Nat
deriving DecidableEq

/-- `data_block_t`: a 2-byte flag, a 2-byte azimuth tick and 32 laser
returns.  The same layout is used for the decoded firing entries of a
scan (`LiDARScan_t.firings`), where a VLP16 logical firing only fills the
first 16 laser slots. -/
structure DataBlock where
  flag : Nat
  azimuth : Nat
  v_laser : List DataPoint
deriving DecidableEq

/-- Default (zero) data block, the value of a zero-initialised firings slot. -/
def zeroBlock : DataBlock := ⟨0, 0, []⟩

/-- `data_packet_t`: the 42-byte link-layer header is dropped, leaving the
12 hardware blocks, the 4-byte device timestamp and the 2-byte factory
trailer (its raw 16-bit value as a `Nat`). -/
structure DataPacket where
  block : Nat → DataBlock
  tstamp : Nat
  factory : Nat

/-- `LiDARScan_t`: the fixed-capacity assembled-scan buffer.  The two
arrays are modelled as functions updated in place. -/
structure LiDARScan where
  lidarHardware : LiDARHardware
  timestamp_us : Nat
  block_timestamp_us : Nat → Nat
  firings : Nat → DataBlock

/-- `pcaprec_hdr_t`: per-record capture header. -/
structure PcapRecordHdr where
  ts_sec : Nat
  ts_usec : Nat
  incl_len : Nat
  orig_len : Nat
deriving DecidableEq

/-- One record of the capture stream: its header plus the packet body that
follows it.  `pkt = none` models a record whose body cannot be read
(truncated at end of file); for records that are not data packets the body
is only ever skipped, so its bytes are not retained. -/
structure PcapRecord where
  hdr : PcapRecordHdr
  pkt : Option DataPacket

/-- `pcap_hdr_t`: the global capture header. -/
structure PcapGlobalHeader where
  magic_number : Nat
  version_major : Nat
  version_minor : Nat
  thiszone : Int
  sigfigs : Nat
  snaplen : Nat
  network : Nat

/-- The capture file as seen by `GetFirstLidarScan`: it may fail to open
(`fopen` returns NULL), open but be too short for the global header, or
provide a global header followed by a list of records. -/
inductive PcapFile where
  | unopenable
  | truncated
  | wellFormed (ghdr : PcapGlobalHeader) (records : List PcapRecord)

/-! ### Timestamp scaling (VelodynePCAPReader.cpp lines 290-330) -/

/-- `PCAPLiDARTimeScalingType`. -/
inductive PCAPLiDARTimeScalingType where
  | Legacy
  | Corrected
deriving DecidableEq

/-- Truncation of an `unsigned int` (32-bit) intermediate. -/
def u32cast (x : Nat) : Nat := x % 4294967296

/-- `convertSecondsToMicroSeconds`: the operand is widened to 64 bits
before the multiply, so no 32-bit truncation happens here. -/
def convertSecondsToMicroSeconds (timestamp_s : Nat) : Nat :=
  timestamp_s * 1000000

/-- `getPCAPVersionDependentLiDARTimestamp`.  In the Legacy branch the two
products `1000U * phdr_ts_sec` and `1000U * phdr_ts_usec` are computed in
32-bit `unsigned int` arithmetic (hence `u32cast`) before being widened and
added; the 64-bit sum cannot overflow.  In the Corrected branch the
seconds are widened first, and the 64-bit sum is reduced modulo the
rollover constant `2^32 - 1`. -/
def getPCAPVersionDependentLiDARTimestamp (phdr_ts_sec phdr_ts_usec : Nat)
    (pcapLidarTimeScalingType : PCAPLiDARTimeScalingType) : Nat :=
  match pcapLidarTimeScalingType with
  | .Legacy => u32cast (1000 * phdr_ts_sec) + u32cast (1000 * phdr_ts_usec)
  | .Corrected =>
      (convertSecondsToMicroSeconds phdr_ts_sec + phdr_ts_usec) % 4294967295

/-! ### Reading the next data packet (VelodynePCAPReader.cpp lines 87-114) -/

/-- `readNextDataPacket`: reads record headers, returning the body of the
first record whose `orig_len` equals `dataPacketLength` together with its
corrected capture timestamp; any other record is skipped by seeking past
its `orig_len` bytes (in the record-list model: dropping the record).
Returns the read packet (if any), the timestamp that was written through
the out-parameter (written as soon as a data-length header is seen, even
if the body read then fails), and the rest of the stream.  An empty stream
models `fread` failing on the record header (EOF). -/
def readNextDataPacket (mode : PCAPLiDARTimeScalingType) :
    List PcapRecord → Option DataPacket × Option Nat × List PcapRecord
  | [] => (none, none, [])
  | r :: rest =>
      if r.hdr.orig_len = dataPacketLength then
        (r.pkt,
         some (getPCAPVersionDependentLiDARTimestamp r.hdr.ts_sec r.hdr.ts_usec mode),
         rest)
      else
        readNextDataPacket mode rest

/-- Number of nested invocations of `readNextDataPacket` performed on a
given stream: the C function calls itself once for every skipped record
(VelodynePCAPReader.cpp line 109), so the C call-stack depth on this
stream is exactly this value. -/
def readNextDataPacketDepth : List PcapRecord → Nat
  | [] => 1
  | r :: rest =>
      if r.hdr.orig_len = dataPacketLength then 1
      else 1 + readNextDataPacketDepth rest

/-! ### Hardware model detection (VelodynePCAPReader.cpp lines 128-157) -/

/-- Value of the C expression `pkt.factory >> 8` where `factory` is a
signed 16-bit `short` holding the raw bits `factory` (a `Nat` below
`2^16`): integer promotion sign-extends, and the arithmetic right shift
of a negative value is a floor division by 256. -/
def factoryHighByteSigned (factory : Nat) : Int :=
  if factory < 32768 then ((factory / 256 : Nat) : Int)
  else ((factory / 256 : Nat) : Int) - 256

/-- Classification of the first packet's factory trailer performed at
`iBlock == 0` of `ImplGetNextLidarScan`. -/
def detectLiDARHardware (factory : Nat) : LiDARHardware :=
  if factoryHighByteSigned factory = 0x22 then .VLP16
  else if factoryHighByteSigned factory = 0x21 then .HDL32
  else if factoryHighByteSigned factory = 0x28 then .VLP32C
  else .unknown

/-! ### VLP16 firing-sequence interleaving (VelodynePCAPReader.cpp lines 158-187) -/

/-- C assignment of an `int` sum of two `uint16_t` azimuths back into a
`uint16_t` field: reduction modulo `2^16`. -/
def addU16 (a b : Nat) : Nat := (a + b) % 65536

/-- The C statement
`azimuthChange = (pkt.block[i/2+1].azimuth - pkt.block[i/2].azimuth) / 2`:
the two `uint16_t` azimuths are promoted to `int`, subtracted, divided by
2 with truncation toward zero, and the result is stored into the
`uint16_t` variable `azimuthChange` (reduction modulo `2^16`). -/
def halfAzimuthDelta (next cur : Nat) : Nat :=
  (Int.emod (Int.tdiv ((next : Int) - (cur : Int)) 2) 65536).toNat

/-- Loop of the VLP16 branch of `ImplGetNextLidarScan`, iterating the
sequence index `i` and accumulating the produced firing sequences and the
(static) `azimuthChange` value.  An even-indexed sequence `i` copies block
`i/2`'s flag, azimuth and first 16 laser readings; an odd-indexed sequence
copies the previous sequence's flag, adds `azimuthChange` (recomputed from
blocks `i/2` and `i/2 + 1` unless `i` is the last sequence of the packet)
to the previous sequence's azimuth, and takes laser readings 16..31 of
block `i/2`. -/
def vlp16Loop (blk : Nat → DataBlock) : List Nat → List DataBlock → Nat → List DataBlock × Nat
  | [], fs, chg => (fs, chg)
  | i :: rest, fs, chg =>
      if i % 2 = 1 then
        let prev := fs.getLastD zeroBlock
        let chg2 :=
          if i ≠ VLP16_Hardware.firingSequencesPerBlock - 1 then
            halfAzimuthDelta (blk (i / 2 + 1)).azimuth (blk (i / 2)).azimuth
          else chg
        vlp16Loop blk rest
          (fs ++ [⟨prev.flag, addU16 prev.azimuth chg2,
                   List.take 16 (List.drop 16 (blk (i / 2)).v_laser)⟩]) chg2
      else
        vlp16Loop blk rest
          (fs ++ [⟨(blk (i / 2)).flag, (blk (i / 2)).azimuth,
                   List.take 16 (blk (i / 2)).v_laser⟩]) chg

/-- The `n` logical firing sequences produced from the 12 hardware blocks
of one VLP16 packet (the loop running over sequence indices `0..n-1`),
together with the final `azimuthChange`. -/
def vlp16Seqs (blk : Nat → DataBlock) (azChgIn : Nat) (n : Nat) : List DataBlock × Nat :=
  vlp16Loop blk (List.range n) [] azChgIn

/-! ### Scan assembly (VelodynePCAPReader.cpp lines 116-215) -/

/-- Store a list of decoded firing sequences into the scan's firing array
starting at index `base` (the `memcpy`s into `scan->firings`). -/
def writeSeq (f : Nat → DataBlock) (base : Nat) : List DataBlock → Nat → DataBlock
  | [] => f
  | b :: bs => writeSeq (upd f base b) (base + 1) bs

/-- State threaded through the `for` loop of `ImplGetNextLidarScan`:
the scan being assembled, the remaining capture stream, the static
`azimuthChange` variable, the return code `rc`, and the loop bound
`kHDLMaxBlocksPerScan` (updated when the hardware model is detected). -/
structure ImplState where
  scan : LiDARScan
  stream : List PcapRecord
  azimuthChange : Nat
  rc : Int
  maxBlocks : Nat

/-- One iteration of the `ImplGetNextLidarScan` loop at block `iBlock`:
read the next data packet (writing `scan->block_timestamp_us[iBlock]` as
soon as a data-length header is seen); on success, detect the hardware
model if `iBlock == 0`, decode the packet's blocks into the firing array
according to the model, and set `rc = GLSE_SUCCESS`; on failure, leave the
state (other than the consumed stream) unchanged. -/
def implStep (mode : PCAPLiDARTimeScalingType) (iBlock : Nat) (st : ImplState) : ImplState :=
  let res := readNextDataPacket mode st.stream
  let scan1 :=
    match res.2.1 with
    | some ts => { st.scan with block_timestamp_us := upd st.scan.block_timestamp_us iBlock ts }
    | none => st.scan
  match res.1 with
  | none => { st with scan := scan1, stream := res.2.2 }
  | some pkt =>
      let hw := if iBlock = 0 then detectLiDARHardware pkt.factory else scan1.lidarHardware
      let maxB :=
        if iBlock = 0 then
          match detectLiDARHardware pkt.factory with
          | .VLP16 => VLP16_Hardware.blocksPerScan
          | .HDL32 => HDL32_Hardware.blocksPerScan
          | .VLP32C => VLP32C_Hardware.blocksPerScan
          | .unknown => st.maxBlocks
        else st.maxBlocks
      let scan2 := { scan1 with lidarHardware := hw }
      match hw with
      | .VLP16 =>
          let r := vlp16Seqs pkt.block st.azimuthChange VLP16_Hardware.firingSequencesPerBlock
          let fs := writeSeq scan2.firings (iBlock * VLP16_Hardware.firingSequencesPerBlock) r.1
          ⟨{ scan2 with firings := fs }, res.2.2, r.2, GLSE_SUCCESS, maxB⟩
      | .HDL32 =>
          let fs := writeSeq scan2.firings (iBlock * HDL32_Hardware.firingSequencesPerBlock)
            ((List.range 12).map pkt.block)
          ⟨{ scan2 with firings := fs }, res.2.2, st.azimuthChange, GLSE_SUCCESS, maxB⟩
      | .VLP32C =>
          let fs := writeSeq scan2.firings (iBlock * VLP32C_Hardware.firingSequencesPerBlock)
            ((List.range 12).map pkt.block)
          ⟨{ scan2 with firings := fs }, res.2.2, st.azimuthChange, GLSE_SUCCESS, maxB⟩
      | .unknown =>
          ⟨scan2, res.2.2, st.azimuthChange, GLSE_SUCCESS, maxB⟩

/-- The `for (iBlock = 0; iBlock < kHDLMaxBlocksPerScan; iBlock++)` loop:
`fuel` is an upper bound on the remaining iterations (the bound starts at
181 and is only ever lowered by hardware detection, so fuel 181 from
iteration 0 always suffices). -/
def implLoop (mode : PCAPLiDARTimeScalingType) : Nat → Nat → ImplState → ImplState
  | 0, _, st => st
  | fuel + 1, iBlock, st =>
      if iBlock < st.maxBlocks then implLoop mode fuel (iBlock + 1) (implStep mode iBlock st)
      else st

/-- `ImplGetNextLidarScan`: assemble the next scan from the stream.  The
initial return code is `GLSE_FILEIOERR`; after the loop the overall scan
timestamp is set to the timestamp of the last block.  Returns the return
code, the scan buffer, the remaining stream and the final value of the
static `azimuthChange` variable. -/
def ImplGetNextLidarScan (mode : PCAPLiDARTimeScalingType) (scan0 : LiDARScan)
    (azChg0 : Nat) (stream : List PcapRecord) : Int × LiDARScan × List PcapRecord × Nat :=
  let st := implLoop mode 181 0 ⟨scan0, stream, azChg0, GLSE_FILEIOERR, 181⟩
  (st.rc,
   { st.scan with timestamp_us := st.scan.block_timestamp_us (st.maxBlocks - 1) },
   st.stream, st.azimuthChange)

/-! ### Timestamp scaling arbitration (VelodynePCAPReader.cpp lines 332-509) -/

/-- Subtraction of two `unsigned int` timestamps, wrapping modulo `2^32`. -/
def u32sub (a b : Nat) : Nat := (a % 4294967296 + 4294967296 - b % 4294967296) % 4294967296

/-- Microsecond timestamps of the qualifying (data or GPS/position)
records among the up-to-100 record headers inspected by the sampling loop
of `determineLiDARTimeScalingType`. -/
def qualifyingUsecs (records : List PcapRecordHdr) : List Nat :=
  (records.take 100).filterMap fun r =>
    if r.orig_len = dataPacketLength ∨ r.orig_len = gpsPacketLength then some r.ts_usec
    else none

/-- The inter-record delta timestamps `phdr.ts_usec - lastMicrosecondsTimestamp`
collected by the sampling loop (32-bit unsigned differences of consecutive
qualifying records). -/
def deltaTimestamps (records : List PcapRecordHdr) : List Nat :=
  List.zipWith (fun prev cur => u32sub cur prev)
    (qualifyingUsecs records) (qualifyingUsecs records).tail

/-- `minDeltaTime`: the `std::minmax_element` minimum over the collected
deltas (only used when at least two samples exist). -/
def minDeltaTime (deltas : List Nat) : Nat := deltas.foldl min (deltas.headD 0)

/-- `maxDeltaTime`: the `std::minmax_element` maximum over the collected
deltas. -/
def maxDeltaTime (deltas : List Nat) : Nat := deltas.foldl max (deltas.headD 0)

/-- `meanDeltaTime`: the sum is accumulated in `unsigned int` (wrapping
modulo `2^32`) and then divided by the number of entries; the `float`
quotient is idealised as an exact rational. -/
def meanDeltaTime (deltas : List Nat) : ℚ :=
  ((deltas.sum % 4294967296 : Nat) : ℚ) / (deltas.length : ℚ)

/-- `correctedTypeVotes`: how many of the three statistics pass their
Corrected threshold (`min >= 5`, `max >= 25`, `mean >= 7`). -/
def correctedTypeVotes (deltas : List Nat) : Nat :=
  (if minDeltaTime deltas ≥ 5 then 1 else 0) +
  (if maxDeltaTime deltas ≥ 25 then 1 else 0) +
  (if meanDeltaTime deltas ≥ 7 then 1 else 0)

/-- `legacyTypeVotes`: how many of the three statistics pass their Legacy
threshold (`min <= 1`, `max <= 5`, `mean <= 3`). -/
def legacyTypeVotes (deltas : List Nat) : Nat :=
  (if minDeltaTime deltas ≤ 1 then 1 else 0) +
  (if maxDeltaTime deltas ≤ 5 then 1 else 0) +
  (if meanDeltaTime deltas ≤ 3 then 1 else 0)

/-- `determineLiDARTimeScalingType`: version-range rules, then (for the
ambiguous 2.4 band) the statistical heuristic over the sampled
inter-record deltas.  The byte-level misalignment the C code suffers on
records that are neither data nor GPS packets is not modelled: each header
read yields the next record header of the list. -/
def determineLiDARTimeScalingType (pcapVersionMajor pcapVersionMinor : Nat)
    (records : List PcapRecordHdr) : PCAPLiDARTimeScalingType :=
  if pcapVersionMajor > 2 ∨ (pcapVersionMajor = 2 ∧ pcapVersionMinor > 4) then .Corrected
  else if pcapVersionMajor < 2 ∨ (pcapVersionMajor = 2 ∧ pcapVersionMinor < 4) then .Legacy
  else
    let deltas := deltaTimestamps records
    if deltas.length ≤ 1 then .Legacy
    else if minDeltaTime deltas ≥ 5 ∧ maxDeltaTime deltas ≥ 25 ∧ meanDeltaTime deltas ≥ 7 then
      .Corrected
    else if minDeltaTime deltas ≤ 1 ∧ maxDeltaTime deltas ≤ 5 ∧ meanDeltaTime deltas ≤ 3 then
      .Legacy
    else if correctedTypeVotes deltas > legacyTypeVotes deltas then .Corrected
    else if legacyTypeVotes deltas > correctedTypeVotes deltas then .Legacy
    else .Legacy

/-! ### Opening a capture (VelodynePCAPReader.cpp lines 217-274) -/

/-- `isValidMagicNumber`: the two PCAP magic constants, each in both byte
orders. -/
def isValidMagicNumber (magic : Nat) : Bool :=
  magic = 0xa1b23c4d ∨ magic = 0x4d3cb2a1 ∨ magic = 0xa1b2c3d4 ∨ magic = 0xd4c3b2a1

/-- `GetFirstLidarScan`: open the capture, read and validate the global
header, arbitrate the timestamp scaling (the stream position is restored
afterwards, so scan assembly starts at the first record), and assemble the
first scan.  Returns the return code, the scan buffer, the remaining
stream, the static `azimuthChange`, and the arbitrated scaling mode (the
global `gPcapLidarTimeScalingType`, whose initial value is `Corrected`). -/
def GetFirstLidarScan (file : PcapFile) (scan0 : LiDARScan) (azChg0 : Nat) :
    Int × LiDARScan × List PcapRecord × Nat × PCAPLiDARTimeScalingType :=
  match file with
  | .unopenable => (GLSE_FILEIOERR, scan0, [], azChg0, .Corrected)
  | .truncated => (GLSE_FILEIOERR, scan0, [], azChg0, .Corrected)
  | .wellFormed ghdr records =>
      if isValidMagicNumber ghdr.magic_number then
        let mode := determineLiDARTimeScalingType ghdr.version_major ghdr.version_minor
          (records.map PcapRecord.hdr)
        let r := ImplGetNextLidarScan mode scan0 azChg0 records
        (r.1, r.2.1, r.2.2.1, r.2.2.2, mode)
      else
        (GLSE_FILEFORMAT_ERROR, scan0, records, azChg0, .Corrected)

/-! ### Geometric reconstruction (LidarFactory.cpp lines 169-205)

The `float` arithmetic is idealised over an ordered field `α`; the
per-sensor numeric constants of `VelodyneLidar` and the trigonometric
functions are bundled into `GeomParams` so that the definitions stay
executable and the theorems can instantiate `cos`/`sin` with
`Real.cos`/`Real.sin` and `radiansPerTick` with the exact value
`2π / 36000` that the literal `kRadiansPerTick = 1.745329251994329e-04F`
rounds. -/

/-- One output point (`lidar::LidarPoint`). -/
structure LidarPoint (α : Type) where
  x : α
  y : α
  z : α
  intensity : α
deriving DecidableEq

/-- The member state of `VelodyneLidar` consumed by `populateGeometry`,
plus the trigonometric functions. -/
structure GeomParams (α : Type) where
  metersPerTick : α
  maxRangeMeters : α
  spinRate : α
  microsecondsPerLaserFiring : α
  radiansPerTick : α
  verticalAnglesRad : Nat → α
  cos : α → α
  sin : α → α

/-- The clamp `m_maxRangeMeters = std::max(0.01F, max_range_m)` applied by
`VelodyneLidar::configure`. -/
def configureMaxRange {α : Type} [LinearOrderedField α] (max_range_m : α) : α :=
  max (1 / 100) max_range_m

/-- Body of the innermost loop of `VelodyneLidar::populateGeometry` for a
given firing entry and beam index: reject a zero range tick, reject a
derived range above the ceiling, otherwise back-project to a Cartesian
point with normalised intensity. -/
def reconstructPoint {α : Type} [LinearOrderedField α] (P : GeomParams α)
    (currentFiring : DataBlock) (beam : Nat) : Option (LidarPoint α) :=
  let rawRange := (currentFiring.v_laser.getD beam ⟨0, 0⟩).range
  if rawRange = 0 then none
  else
    let rangeMeters := (rawRange : α) * P.metersPerTick
    if P.maxRangeMeters < rangeMeters then none
    else
      let phi := P.verticalAnglesRad beam
      let baseTheta := (currentFiring.azimuth : α) * P.radiansPerTick
      let theta := baseTheta + P.spinRate * (beam : α) * P.microsecondsPerLaserFiring
      let cosPhi := P.cos phi
      some ⟨rangeMeters * cosPhi * P.cos theta,
            -(rangeMeters * cosPhi * P.sin theta),
            rangeMeters * P.sin phi,
            ((currentFiring.v_laser.getD beam ⟨0, 0⟩).refl : α) / 255⟩

/-- `VelodyneLidar::populateGeometry`: iterate over every block, firing
sequence and beam of the scan, appending the reconstructed points in
firing order. -/
def populateGeometry {α : Type} [LinearOrderedField α] (P : GeomParams α)
    (config : LiDARConfiguration) (firings : Nat → DataBlock) : List (LidarPoint α) :=
  (List.range config.blocksPerScan).flatMap fun block =>
    (List.range config.firingSequencesPerBlock).flatMap fun firing =>
      (List.range config.numBeams).filterMap fun beam =>
        reconstructPoint P (firings (block * config.firingSequencesPerBlock + firing)) beam

/-- Number of beam entries with a non-zero range tick across all firings
of the scan (counted over the same block/firing/beam ranges that
`populateGeometry` iterates). -/
def nonZeroRangeBeamCount (config : LiDARConfiguration) (firings : Nat → DataBlock) : Nat :=
  ((List.range config.blocksPerScan).flatMap fun block =>
    (List.range config.firingSequencesPerBlock).flatMap fun firing =>
      (List.range config.numBeams).filter fun beam =>
        ((firings (block * config.firingSequencesPerBlock + firing)).v_laser.getD beam
          ⟨0, 0⟩).range ≠ 0).length

/-! ### The VelodyneLidar sensor (LidarFactory.cpp lines 65-167) -/

/-- `HDL32_VERTICAL_ANGLES_RAD` (the `float` literals read as exact
rationals). -/
def HDL32_VERTICAL_ANGLES_RAD : List ℚ :=
  [-0.535293, -0.162839, -0.511905, -0.139626, -0.488692, -0.116239, -0.465305, -0.093026,
   -0.442092, -0.069813, -0.418879, -0.046600, -0.395666, -0.023213, -0.372279, 0,
   -0.349066, 0.023213, -0.325853, 0.046600, -0.302466, 0.069813, -0.279253, 0.093026,
   -0.256040, 0.116413, -0.232652, 0.139626, -0.209440, 0.162839, -0.186227, 0.186227]

/-- `VLP16_VERTICAL_ANGLES_RAD` (unused upper 16 slots zero-filled). -/
def VLP16_VERTICAL_ANGLES_RAD : List ℚ :=
  [-0.261799, 0.0174533, -0.226893, 0.0523599, -0.191986, 0.0872665, -0.15708, 0.122173,
   -0.122173, 0.15708, -0.0872665, 0.191986, -0.0523599, 0.226893, -0.0174533, 0.261799,
   0, 0, 0, 0, 0, 0, 0, 0, 0, 0, 0, 0, 0, 0, 0, 0]

/-- Configuration selected by the `switch` in
`VelodyneLidar::initializeSensor`: the `default` arm (taken for `unknown`
and also for `VLP32C`, which has no `case`) falls back to the HDL32
configuration. -/
def initializeSensorConfig (hw : LiDARHardware) : LiDARConfiguration :=
  match hw with
  | .HDL32 => HDL32_Hardware
  | .VLP16 => VLP16_Hardware
  | _ => HDL32_Hardware

/-- Calibration table selected by the same `switch`: the `default` arm
falls back to the HDL32 vertical-angle table. -/
def initializeSensorAngles (hw : LiDARHardware) : List ℚ :=
  match hw with
  | .HDL32 => HDL32_VERTICAL_ANGLES_RAD
  | .VLP16 => VLP16_VERTICAL_ANGLES_RAD
  | _ => HDL32_VERTICAL_ANGLES_RAD

/-- Member state of `VelodyneLidar` relevant to scan delivery.  The
numeric per-model constants (`m_metersPerTick` etc.) are supplied to
`readNextScan` through `GeomParams`; the capture stream, in-progress scan
buffer, static `azimuthChange` and arbitrated scaling mode stand for the
file handle and globals owned by the reader. -/
structure VelodyneLidarState where
  initialized : Bool
  pendingScan : Bool
  mode : PCAPLiDARTimeScalingType
  config : LiDARConfiguration
  verticalAnglesRad : List ℚ
  scan : LiDARScan
  stream : List PcapRecord
  azimuthChange : Nat

/-- `VelodyneLidar::initializeSensor`: open the capture and read the first
scan; on failure the sensor stays uninitialized; on success it becomes
initialized with a pending scan and the configuration and calibration
table chosen from the detected hardware model. -/
def initializeSensor (file : PcapFile) (st : VelodyneLidarState) : VelodyneLidarState :=
  if st.initialized then st
  else
    let r := GetFirstLidarScan file st.scan st.azimuthChange
    if r.1 ≠ GLSE_SUCCESS then st
    else
      { st with initialized := true, pendingScan := true,
                mode := r.2.2.2.2, scan := r.2.1, stream := r.2.2.1,
                azimuthChange := r.2.2.2.1,
                config := initializeSensorConfig r.2.1.lidarHardware,
                verticalAnglesRad := initializeSensorAngles r.2.1.lidarHardware }

/-- `VelodyneLidar::readNextScan`: deliver the buffered scan (clearing and
refilling the destination cloud and setting the timestamp out-parameter),
then pre-fetch the next scan via `GetNextLidarScan`; if the pre-fetch
fails the sensor finalizes itself but still returns true for the delivered
scan.  When the sensor is not initialized or no scan is pending it returns
false without touching the destination or the timestamp. -/
def readNextScan {α : Type} [LinearOrderedField α] (P : GeomParams α)
    (st : VelodyneLidarState) (destination : List (LidarPoint α)) (timestamp_us : Nat) :
    Bool × VelodyneLidarState × List (LidarPoint α) × Nat :=
  if !st.initialized || !st.pendingScan then (false, st, destination, timestamp_us)
  else
    let dest1 := populateGeometry P st.config st.scan.firings
    let ts1 := st.scan.timestamp_us
    let r := ImplGetNextLidarScan st.mode st.scan st.azimuthChange st.stream
    if r.1 ≠ GLSE_SUCCESS then
      (true, { st with pendingScan := false, initialized := false }, dest1, ts1)
    else
      let st1 := { st with scan := r.2.1, stream := r.2.2.1 }
      (true, { st1 with azimuthChange := r.2.2.2, pendingScan := true }, dest1, ts1)

/-! ### Closed-form entries of the VLP16 interleaving and concrete fixtures -/

/-- Even-indexed logical firing sequence `2k`: block `k`'s flag, azimuth
and first 16 laser readings. -/
def vlp16EvenEntry (blk : Nat → DataBlock) (k : Nat) : DataBlock :=
  ⟨(blk k).flag, (blk k).azimuth, List.take 16 (blk k).v_laser⟩

/-- Odd-indexed logical firing sequence `2k+1` built with half-delta `d`:
block `k`'s flag, the even sequence's azimuth plus `d`, and laser readings
16..31 of block `k`. -/
def vlp16OddEntry (blk : Nat → DataBlock) (k : Nat) (d : Nat) : DataBlock :=
  ⟨(blk k).flag, addU16 (blk k).azimuth d, List.take 16 (List.drop 16 (blk k).v_laser)⟩

/-- Half of the azimuth delta between hardware blocks `k` and `k + 1`. -/
def vlp16Delta (blk : Nat → DataBlock) (k : Nat) : Nat :=
  halfAzimuthDelta (blk (k + 1)).azimuth (blk k).azimuth

/-- A synthetic HDL32 data packet (factory high byte `0x21`). -/
def sampleHdl32Packet : DataPacket :=
  ⟨fun i => ⟨0xeeff, 100 * i, List.replicate 32 ⟨300, 50⟩⟩, 77, 0x2100⟩

/-- A capture record carrying `sampleHdl32Packet` (data-packet length). -/
def sampleDataRecord : PcapRecord := ⟨⟨10, 20, 1248, 1248⟩, some sampleHdl32Packet⟩

/-- A GPS/position record (`orig_len` 554); its body is never decoded. -/
def sampleGpsRecord : PcapRecord := ⟨⟨1, 2, 554, 554⟩, none⟩

/-- A record of unknown length (neither data- nor position-packet). -/
def sampleUnknownRecord : PcapRecord := ⟨⟨3, 4, 100, 100⟩, none⟩

/-- A data packet whose factory high byte (0x00) matches no known model. -/
def sampleUnknownFactoryPacket : DataPacket :=
  ⟨fun i => ⟨0xeeff, 100 * i, List.replicate 32 ⟨300, 50⟩⟩, 77, 0x0011⟩

/-- A capture record carrying `sampleUnknownFactoryPacket`. -/
def sampleUnknownFactoryRecord : PcapRecord :=
  ⟨⟨10, 20, 1248, 1248⟩, some sampleUnknownFactoryPacket⟩

/-- A recognisable marker value for unwritten firing slots. -/
def markerBlock : DataBlock := ⟨7, 8, []⟩

/-- A scan buffer whose firing slots all hold `markerBlock`, so that slots
never written by the assembler can be recognised. -/
def sampleScan0 : LiDARScan := ⟨.unknown, 0, fun _ => 0, fun _ => markerBlock⟩

/-- A well-formed global header with a valid magic number and the
ambiguous version 2.4. -/
def sampleGlobalHeader : PcapGlobalHeader := ⟨0xa1b2c3d4, 2, 4, 0, 0, 65535, 1⟩

/-- Rational-valued geometry parameters with stand-in trigonometric
functions, used to instantiate generic theorems at a computable field. -/
def sampleGeomParamsQ : GeomParams ℚ :=
  ⟨2 / 1000, 120, 1, 1152 / 1000, 1 / 36000, fun _ => 0, fun _ => 1, fun _ => 0⟩

/-- An uninitialized sensor state (fresh `VelodyneLidar` members). -/
def sampleUninitState : VelodyneLidarState :=
  ⟨false, false, .Corrected, HDL32_Hardware, HDL32_VERTICAL_ANGLES_RAD, sampleScan0, [], 0⟩

/-! ## Theorems -/

/-- Closed form of the 24 logical firing sequences a VLP16 packet decodes
to: entry `2k` is block `k` itself (first 16 readings), entry `2k+1` adds
the half-delta of blocks `k` and `k+1` for `k < 11`, and entry 23 reuses
the half-delta of blocks 10 and 11.  The incoming `azimuthChange` value is
never used (it is overwritten at sequence 1 before its first odd-index
use). -/
theorem vlp16Seqs_closed (blk : Nat → DataBlock) (chg : Nat) :
    vlp16Seqs blk chg 24 =
      ([vlp16EvenEntry blk 0, vlp16OddEntry blk 0 (vlp16Delta blk 0),
        vlp16EvenEntry blk 1, vlp16OddEntry blk 1 (vlp16Delta blk 1),
        vlp16EvenEntry blk 2, vlp16OddEntry blk 2 (vlp16Delta blk 2),
        vlp16EvenEntry blk 3, vlp16OddEntry blk 3 (vlp16Delta blk 3),
        vlp16EvenEntry blk 4, vlp16OddEntry blk 4 (vlp16Delta blk 4),
        vlp16EvenEntry blk 5, vlp16OddEntry blk 5 (vlp16Delta blk 5),
        vlp16EvenEntry blk 6, vlp16OddEntry blk 6 (vlp16Delta blk 6),
        vlp16EvenEntry blk 7, vlp16OddEntry blk 7 (vlp16Delta blk 7),
        vlp16EvenEntry blk 8, vlp16OddEntry blk 8 (vlp16Delta blk 8),
        vlp16EvenEntry blk 9, vlp16OddEntry blk 9 (vlp16Delta blk 9),
        vlp16EvenEntry blk 10, vlp16OddEntry blk 10 (vlp16Delta blk 10),
        vlp16EvenEntry blk 11, vlp16OddEntry blk 11 (vlp16Delta blk 10)],
       vlp16Delta blk 10) := by
  have hr : List.range 24 = [0, 1, 2, 3, 4, 5, 6, 7, 8, 9, 10, 11, 12, 13, 14, 15, 16,
      17, 18, 19, 20, 21, 22, 23] := by decide
  simp [vlp16Seqs, hr, vlp16Loop, VLP16_Hardware, vlp16EvenEntry, vlp16OddEntry, vlp16Delta]

/-- C2: for every VLP16 packet (blocks `blk`) and every incoming
`azimuthChange`, each odd-indexed logical firing sequence `2k+1` carries
beam readings 16..31 of hardware block `k` and has azimuth equal to the
preceding even-indexed sequence's azimuth (which is block `k`'s own
azimuth) plus half the azimuth delta between block `k` and block `k+1`;
for the last sequence (`k = 11`, no next block) the most recently computed
half-delta — that of blocks 10 and 11 — is reused instead. -/
theorem vlp16_odd_sequence_azimuth (blk : Nat → DataBlock) (chg : Nat) (k : Fin 12) :
    ((vlp16Seqs blk chg 24).1.getD (2 * (k : Nat) + 1) zeroBlock).azimuth
      = addU16 ((vlp16Seqs blk chg 24).1.getD (2 * (k : Nat)) zeroBlock).azimuth
          (if (k : Nat) < 11 then
            halfAzimuthDelta (blk ((k : Nat) + 1)).azimuth (blk (k : Nat)).azimuth
           else halfAzimuthDelta (blk 11).azimuth (blk 10).azimuth)
    ∧ ((vlp16Seqs blk chg 24).1.getD (2 * (k : Nat) + 1) zeroBlock).v_laser
      = List.take 16 (List.drop 16 (blk (k : Nat)).v_laser)
    ∧ ((vlp16Seqs blk chg 24).1.getD (2 * (k : Nat)) zeroBlock).azimuth
      = (blk (k : Nat)).azimuth := by
  fin_cases k <;>
    exact ⟨by simp [vlp16Seqs_closed, vlp16EvenEntry, vlp16OddEntry, vlp16Delta],
           by simp [vlp16Seqs_closed, vlp16EvenEntry, vlp16OddEntry, vlp16Delta],
           by simp [vlp16Seqs_closed, vlp16EvenEntry, vlp16OddEntry, vlp16Delta]⟩

/-- C3 counterexample: the claim "Legacy returns `1000·sec + 1000·usec`"
fails for `sec = 4294968, usec = 0`: the product `1000U * 4294968`
overflows 32-bit `unsigned int` arithmetic and the code returns 704, not
4294968000. -/
theorem legacy_timestamp_overflow_counterexample :
    getPCAPVersionDependentLiDARTimestamp 4294968 0 .Legacy = 704
    ∧ (704 : Nat) ≠ 1000 * 4294968 + 1000 * 0 := by
  constructor
  · decide
  · decide

/-- C3 amended: the timestamp correction returns
`(1000·sec mod 2^32) + (1000·usec mod 2^32)` in Legacy mode (each product
wraps in 32-bit unsigned arithmetic) and `(1000000·sec + usec) mod (2^32 - 1)`
in Corrected mode; in particular `Legacy(2, 3) = 5000`,
`Corrected(1, 500) = 1000500`, and Corrected wraps modulo `2^32 - 1`
(`Corrected(4294, 967296) = 1`). -/
theorem timestamp_scaling_formulas :
    (∀ sec usec : Nat, getPCAPVersionDependentLiDARTimestamp sec usec .Legacy
        = 1000 * sec % 4294967296 + 1000 * usec % 4294967296)
    ∧ (∀ sec usec : Nat, getPCAPVersionDependentLiDARTimestamp sec usec .Corrected
        = (1000000 * sec + usec) % 4294967295)
    ∧ getPCAPVersionDependentLiDARTimestamp 2 3 .Legacy = 5000
    ∧ getPCAPVersionDependentLiDARTimestamp 1 500 .Corrected = 1000500
    ∧ getPCAPVersionDependentLiDARTimestamp 4294 967296 .Corrected = 1 := by
  refine ⟨fun sec usec => rfl, fun sec usec => ?_, by decide, by decide, by decide⟩
  simp [getPCAPVersionDependentLiDARTimestamp, convertSecondsToMicroSeconds, Nat.mul_comm]

/-- C4: the skip over records that are neither data nor position packets
is implemented as direct self-recursion, not an iterative retry: the
number of nested `readNextDataPacket` invocations (C call-stack depth)
grows by one for every skipped record, so `n` consecutive unknown-length
records followed by a data packet produce a recursion depth of `n + 1` —
unbounded in the stream contents.  (The process does terminate on every
finite stream: the model function is total.) -/
theorem readNextDataPacket_recursion_depth_linear (n : Nat) (r d : PcapRecord)
    (hr : r.hdr.orig_len ≠ dataPacketLength) (hd : d.hdr.orig_len = dataPacketLength) :
    readNextDataPacketDepth (List.replicate n r ++ [d]) = n + 1 := by
  induction n with
  | zero => simp [readNextDataPacketDepth, hd]
  | succ m ih =>
      rw [List.replicate_succ, List.cons_append, readNextDataPacketDepth, if_neg hr, ih]
      omega

/-- C4 witness: 100 consecutive unknown-length records before the first
data packet give recursion depth 101. -/
theorem readNextDataPacket_recursion_depth_linear_witness :
    (sampleUnknownRecord.hdr.orig_len ≠ dataPacketLength)
    ∧ sampleDataRecord.hdr.orig_len = dataPacketLength
    ∧ readNextDataPacketDepth
        (List.replicate 100 sampleUnknownRecord ++ [sampleDataRecord]) = 101 :=
  ⟨by decide, by decide,
   readNextDataPacket_recursion_depth_linear 100 sampleUnknownRecord sampleDataRecord
     (by decide) (by decide)⟩

/-- On a stream containing no data-length record, `readNextDataPacket`
skips everything, reaches EOF and fails. -/
theorem readNextDataPacket_eq_of_no_data (mode : PCAPLiDARTimeScalingType) :
    ∀ stream : List PcapRecord, (∀ r ∈ stream, r.hdr.orig_len ≠ dataPacketLength) →
      readNextDataPacket mode stream = (none, none, []) := by
  intro stream h
  induction stream with
  | nil => rfl
  | cons r rest ih =>
      rw [readNextDataPacket, if_neg (h r (by simp))]
      exact ih fun x hx => h x (by simp [hx])

/-- A loop iteration never changes a `GLSE_SUCCESS` return code back to an
error, and sets it to `GLSE_SUCCESS` whenever the packet read succeeds. -/
theorem implStep_rc_cases (mode : PCAPLiDARTimeScalingType) (iBlock : Nat) (st : ImplState) :
    (implStep mode iBlock st).rc = st.rc ∨ (implStep mode iBlock st).rc = GLSE_SUCCESS := by
  unfold implStep
  rcases hres : readNextDataPacket mode st.stream with ⟨opkt, ots, rest⟩
  cases opkt with
  | none => left; cases ots <;> rfl
  | some pkt => right; cases ots <;> (dsimp only; split <;> rfl)

/-- If the packet read of an iteration succeeds, that iteration sets
`rc = GLSE_SUCCESS`. -/
theorem implStep_rc_of_isSome (mode : PCAPLiDARTimeScalingType) (iBlock : Nat)
    (st : ImplState) (h : (readNextDataPacket mode st.stream).1.isSome = true) :
    (implStep mode iBlock st).rc = GLSE_SUCCESS := by
  unfold implStep
  rcases hres : readNextDataPacket mode st.stream with ⟨opkt, ots, rest⟩
  cases opkt with
  | none => rw [hres] at h; simp at h
  | some pkt => cases ots <;> (dsimp only; split <;> rfl)

/-- Once the return code is `GLSE_SUCCESS`, the remaining loop iterations
keep it. -/
theorem implLoop_rc_success (mode : PCAPLiDARTimeScalingType) :
    ∀ (fuel iBlock : Nat) (st : ImplState), st.rc = GLSE_SUCCESS →
      (implLoop mode fuel iBlock st).rc = GLSE_SUCCESS := by
  intro fuel
  induction fuel with
  | zero => intro iBlock st h; exact h
  | succ f ih =>
      intro iBlock st h
      rw [implLoop]
      by_cases hb : iBlock < st.maxBlocks
      · rw [if_pos hb]
        rcases implStep_rc_cases mode iBlock st with hc | hc
        · exact ih _ _ (hc.trans h)
        · exact ih _ _ hc
      · rw [if_neg hb]; exact h

/-- If the stream holds no data-length record at all, every iteration's
read fails and the return code is left unchanged. -/
theorem implLoop_rc_of_no_data (mode : PCAPLiDARTimeScalingType) :
    ∀ (fuel iBlock : Nat) (st : ImplState),
      (∀ r ∈ st.stream, r.hdr.orig_len ≠ dataPacketLength) →
      (implLoop mode fuel iBlock st).rc = st.rc := by
  intro fuel
  induction fuel with
  | zero => intro iBlock st _; rfl
  | succ f ih =>
      intro iBlock st h
      rw [implLoop]
      by_cases hb : iBlock < st.maxBlocks
      · rw [if_pos hb]
        have hread := readNextDataPacket_eq_of_no_data mode st.stream h
        have hstep : implStep mode iBlock st = { st with stream := [] } := by
          unfold implStep
          rw [hread]
        rw [hstep]
        have := ih (iBlock + 1) { st with stream := [] } (by intro r hr; cases hr)
        simpa using this
      · rw [if_neg hb]

/-- C1 counterexample: on a capture holding exactly one HDL32 data packet,
`ImplGetNextLidarScan` attempts 181 packet reads, 180 of which fail at end
of file, yet it still reports `GLSE_SUCCESS` and returns a scan in which
only the first packet's 12 blocks were decoded — firing slot 12 (block 1)
still holds the pre-existing marker value.  The claim that such a scan "is
discarded (reported as a failure), never returned as a success with only
some blocks decoded" is therefore false. -/
theorem scan_assembly_partial_success_counterexample :
    (ImplGetNextLidarScan .Legacy sampleScan0 0 [sampleDataRecord]).1 = GLSE_SUCCESS
    ∧ (ImplGetNextLidarScan .Legacy sampleScan0 0 [sampleDataRecord]).2.1.lidarHardware
        = .HDL32
    ∧ HDL32_Hardware.blocksPerScan = 181
    ∧ (ImplGetNextLidarScan .Legacy sampleScan0 0 [sampleDataRecord]).2.1.firings 12
        = markerBlock
    ∧ (ImplGetNextLidarScan .Legacy sampleScan0 0 [sampleDataRecord]).2.2.1.length = 0 := by
  refine ⟨by decide, by decide, by decide, by decide, by decide⟩

/-- C1 amended: scan assembly attempts exactly `blocksPerScan` packet
reads but is not all-or-nothing: the result is `GLSE_FILEIOERR` when no
data packet at all can be read (the stream holds no data-length record),
and it is `GLSE_SUCCESS` as soon as the first packet read succeeds, even
when I/O failures prevent reading the remaining packets and leave later
blocks undecoded. -/
theorem scan_assembly_not_all_or_nothing :
    (∀ (mode : PCAPLiDARTimeScalingType) (scan0 : LiDARScan) (azChg0 : Nat)
       (stream : List PcapRecord),
       (∀ r ∈ stream, r.hdr.orig_len ≠ dataPacketLength) →
       (ImplGetNextLidarScan mode scan0 azChg0 stream).1 = GLSE_FILEIOERR)
    ∧ (∀ (mode : PCAPLiDARTimeScalingType) (scan0 : LiDARScan) (azChg0 : Nat)
         (stream : List PcapRecord),
         (readNextDataPacket mode stream).1.isSome = true →
         (ImplGetNextLidarScan mode scan0 azChg0 stream).1 = GLSE_SUCCESS) := by
  constructor
  · intro mode scan0 azChg0 stream h
    show (implLoop mode 181 0 ⟨scan0, stream, azChg0, GLSE_FILEIOERR, 181⟩).rc = _
    exact implLoop_rc_of_no_data mode 181 0 _ h
  · intro mode scan0 azChg0 stream h
    show (implLoop mode 181 0 ⟨scan0, stream, azChg0, GLSE_FILEIOERR, 181⟩).rc = _
    rw [implLoop, if_pos (by norm_num)]
    exact implLoop_rc_success mode 180 1 _ (implStep_rc_of_isSome mode 0 _ h)

/-- C1 witness: on a stream holding only a GPS record the assembly fails
with `GLSE_FILEIOERR`; on a stream whose first read yields a data packet
it reports `GLSE_SUCCESS`. -/
theorem scan_assembly_not_all_or_nothing_witness :
    (([sampleGpsRecord].all fun r => r.hdr.orig_len ≠ dataPacketLength) = true
     ∧ (ImplGetNextLidarScan .Legacy sampleScan0 0 [sampleGpsRecord]).1 = GLSE_FILEIOERR)
    ∧ ((readNextDataPacket .Legacy [sampleDataRecord]).1.isSome = true
       ∧ (ImplGetNextLidarScan .Legacy sampleScan0 0 [sampleDataRecord]).1 = GLSE_SUCCESS) :=
  ⟨⟨by decide,
    scan_assembly_not_all_or_nothing.1 .Legacy sampleScan0 0 [sampleGpsRecord]
      (by decide)⟩,
   ⟨rfl,
    scan_assembly_not_all_or_nothing.2 .Legacy sampleScan0 0 [sampleDataRecord] rfl⟩⟩

/-- C5: the scaling decision follows the version-range rules
(`major > 2` or `2.x` with `minor > 4` gives Corrected; `major < 2` or
`2.x` with `minor < 4` gives Legacy); in the ambiguous 2.4 band it
defaults to Legacy with fewer than two inter-record delta samples, and
also defaults to Legacy whenever the vote over the three individual
thresholds (min, max, mean) ties. -/
theorem determineLiDARTimeScalingType_rules :
    (∀ (major minor : Nat) (records : List PcapRecordHdr),
       major > 2 ∨ (major = 2 ∧ minor > 4) →
       determineLiDARTimeScalingType major minor records = .Corrected)
    ∧ (∀ (major minor : Nat) (records : List PcapRecordHdr),
         major < 2 ∨ (major = 2 ∧ minor < 4) →
         determineLiDARTimeScalingType major minor records = .Legacy)
    ∧ (∀ records : List PcapRecordHdr, (deltaTimestamps records).length < 2 →
         determineLiDARTimeScalingType 2 4 records = .Legacy)
    ∧ (∀ records : List PcapRecordHdr,
         correctedTypeVotes (deltaTimestamps records)
           = legacyTypeVotes (deltaTimestamps records) →
         determineLiDARTimeScalingType 2 4 records = .Legacy) := by
  refine ⟨?_, ?_, ?_, ?_⟩
  · intro major minor records h
    rw [determineLiDARTimeScalingType, if_pos h]
  · intro major minor records h
    have hn : ¬(major > 2 ∨ (major = 2 ∧ minor > 4)) := by omega
    rw [determineLiDARTimeScalingType, if_neg hn, if_pos h]
  · intro records h
    rw [determineLiDARTimeScalingType, if_neg (by omega), if_neg (by omega),
      if_pos (by omega)]
  · intro records htie
    rw [determineLiDARTimeScalingType, if_neg (by omega), if_neg (by omega)]
    by_cases hlen : (deltaTimestamps records).length ≤ 1
    · rw [if_pos hlen]
    · rw [if_neg hlen]
      by_cases hc : minDeltaTime (deltaTimestamps records) ≥ 5
          ∧ maxDeltaTime (deltaTimestamps records) ≥ 25
          ∧ meanDeltaTime (deltaTimestamps records) ≥ 7
      · exfalso
        obtain ⟨h1, h2, h3⟩ := hc
        have e1 : ¬(minDeltaTime (deltaTimestamps records) ≤ 1) := by omega
        have e2 : ¬(maxDeltaTime (deltaTimestamps records) ≤ 5) := by omega
        have e3 : ¬(meanDeltaTime (deltaTimestamps records) ≤ 3) := by linarith
        simp [correctedTypeVotes, legacyTypeVotes, h1, h2, h3, e1, e2, e3] at htie
      · rw [if_neg hc]
        by_cases hl : minDeltaTime (deltaTimestamps records) ≤ 1
            ∧ maxDeltaTime (deltaTimestamps records) ≤ 5
            ∧ meanDeltaTime (deltaTimestamps records) ≤ 3
        · rw [if_pos hl]
        · rw [if_neg hl, if_neg (by omega), if_neg (by omega)]

/-- C5 witness: `determine(1, 0) = Legacy`, `determine(3, 0) = Corrected`,
an empty sample set defaults to Legacy, and a sample set whose vote ties
(deltas `[0, 25, 0, 0]`: one Legacy vote from the minimum, one Corrected
vote from the maximum, mean 6.25 votes for neither) also yields Legacy. -/
theorem determineLiDARTimeScalingType_rules_witness :
    determineLiDARTimeScalingType 3 0 [] = .Corrected
    ∧ determineLiDARTimeScalingType 1 0 [] = .Legacy
    ∧ (deltaTimestamps ([] : List PcapRecordHdr)).length < 2
    ∧ determineLiDARTimeScalingType 2 4 [] = .Legacy
    ∧ correctedTypeVotes (deltaTimestamps
        [⟨0, 0, 1248, 1248⟩, ⟨0, 0, 1248, 1248⟩, ⟨0, 25, 1248, 1248⟩,
         ⟨0, 25, 554, 554⟩, ⟨0, 25, 1248, 1248⟩])
        = legacyTypeVotes (deltaTimestamps
        [⟨0, 0, 1248, 1248⟩, ⟨0, 0, 1248, 1248⟩, ⟨0, 25, 1248, 1248⟩,
         ⟨0, 25, 554, 554⟩, ⟨0, 25, 1248, 1248⟩])
    ∧ determineLiDARTimeScalingType 2 4
        [⟨0, 0, 1248, 1248⟩, ⟨0, 0, 1248, 1248⟩, ⟨0, 25, 1248, 1248⟩,
         ⟨0, 25, 554, 554⟩, ⟨0, 25, 1248, 1248⟩] = .Legacy := by
  have hd : deltaTimestamps
      [⟨0, 0, 1248, 1248⟩, ⟨0, 0, 1248, 1248⟩, ⟨0, 25, 1248, 1248⟩,
       ⟨0, 25, 554, 554⟩, ⟨0, 25, 1248, 1248⟩] = [0, 25, 0, 0] := by decide
  have hmean : meanDeltaTime [0, 25, 0, 0] = 25 / 4 := by
    norm_num [meanDeltaTime]
  have hmin : minDeltaTime [0, 25, 0, 0] = 0 := by decide
  have hmax : maxDeltaTime [0, 25, 0, 0] = 25 := by decide
  have htie : correctedTypeVotes [0, 25, 0, 0] = legacyTypeVotes [0, 25, 0, 0] := by
    rw [correctedTypeVotes, legacyTypeVotes, hmean, hmin, hmax]
    norm_num
  exact ⟨determineLiDARTimeScalingType_rules.1 3 0 [] (by omega),
    determineLiDARTimeScalingType_rules.2.1 1 0 [] (by omega),
    by decide,
    determineLiDARTimeScalingType_rules.2.2.1 [] (by decide),
    by rw [hd]; exact htie,
    determineLiDARTimeScalingType_rules.2.2.2 _ (by rw [hd]; exact htie)⟩

/-- C8: detection from the factory trailer maps high byte `0x22` to VLP16,
`0x21` to HDL32, `0x28` to VLP32C and every other value to Unknown (the
signed right shift of the `short` field cannot collide with the three
codes); and for an Unknown model the sensor initialization still succeeds,
falling back to the HDL32 configuration and HDL32 calibration table. -/
theorem hardware_detection_and_fallback :
    (∀ hi lo : Nat, hi < 256 → lo < 256 →
       detectLiDARHardware (256 * hi + lo)
         = (if hi = 0x22 then .VLP16 else if hi = 0x21 then .HDL32
            else if hi = 0x28 then .VLP32C else .unknown))
    ∧ initializeSensorConfig .unknown = HDL32_Hardware
    ∧ initializeSensorAngles .unknown = HDL32_VERTICAL_ANGLES_RAD
    ∧ (∀ (file : PcapFile) (st : VelodyneLidarState), st.initialized = false →
         (GetFirstLidarScan file st.scan st.azimuthChange).1 = GLSE_SUCCESS →
         (initializeSensor file st).initialized = true
         ∧ ((GetFirstLidarScan file st.scan st.azimuthChange).2.1.lidarHardware = .unknown →
             (initializeSensor file st).config = HDL32_Hardware
             ∧ (initializeSensor file st).verticalAnglesRad = HDL32_VERTICAL_ANGLES_RAD)) := by
  refine ⟨?_, rfl, rfl, ?_⟩
  · intro hi lo hhi hlo
    have hdiv : (256 * hi + lo) / 256 = hi := by omega
    have hfhb : factoryHighByteSigned (256 * hi + lo)
        = if hi < 128 then (hi : Int) else (hi : Int) - 256 := by
      unfold factoryHighByteSigned
      rw [hdiv]
      by_cases h : hi < 128
      · rw [if_pos (by omega), if_pos h]
      · rw [if_neg (by omega), if_neg h]
    unfold detectLiDARHardware
    rw [hfhb]
    by_cases h : hi < 128
    · rw [if_pos h]
      split_ifs <;> first | rfl | omega
    · rw [if_neg h]
      split_ifs <;> first | rfl | omega
  · intro file st h0 hrc
    have hni : ¬(st.initialized = true) := by simp [h0]
    have hne : ¬((GetFirstLidarScan file st.scan st.azimuthChange).1 ≠ GLSE_SUCCESS) := by
      simp [hrc]
    constructor
    · simp only [initializeSensor, if_neg hni, if_neg hne]
    · intro hu
      simp only [initializeSensor, if_neg hni, if_neg hne, hu]
      exact ⟨rfl, rfl⟩

/-- C8 witness: high byte `0x28` yields VLP32C, and a capture whose first
packet has factory high byte `0x00` is detected as Unknown but still
initializes, with the HDL32 configuration and calibration table. -/
theorem hardware_detection_and_fallback_witness :
    detectLiDARHardware (256 * 0x28 + 0) = .VLP32C
    ∧ (GetFirstLidarScan (.wellFormed sampleGlobalHeader [sampleUnknownFactoryRecord])
        sampleUninitState.scan sampleUninitState.azimuthChange).1 = GLSE_SUCCESS
    ∧ (GetFirstLidarScan (.wellFormed sampleGlobalHeader [sampleUnknownFactoryRecord])
        sampleUninitState.scan sampleUninitState.azimuthChange).2.1.lidarHardware = .unknown
    ∧ (initializeSensor (.wellFormed sampleGlobalHeader [sampleUnknownFactoryRecord])
        sampleUninitState).initialized = true
    ∧ (initializeSensor (.wellFormed sampleGlobalHeader [sampleUnknownFactoryRecord])
        sampleUninitState).config = HDL32_Hardware
    ∧ (initializeSensor (.wellFormed sampleGlobalHeader [sampleUnknownFactoryRecord])
        sampleUninitState).verticalAnglesRad = HDL32_VERTICAL_ANGLES_RAD := by
  have h1 := (hardware_detection_and_fallback.1 0x28 0 (by norm_num) (by norm_num))
  have hrc : (GetFirstLidarScan (.wellFormed sampleGlobalHeader [sampleUnknownFactoryRecord])
      sampleUninitState.scan sampleUninitState.azimuthChange).1 = GLSE_SUCCESS := by decide
  have hu : (GetFirstLidarScan (.wellFormed sampleGlobalHeader [sampleUnknownFactoryRecord])
      sampleUninitState.scan sampleUninitState.azimuthChange).2.1.lidarHardware
        = .unknown := by decide
  have h4 := hardware_detection_and_fallback.2.2.2
    (.wellFormed sampleGlobalHeader [sampleUnknownFactoryRecord]) sampleUninitState rfl hrc
  exact ⟨by simpa using h1, hrc, hu, h4.1, (h4.2 hu).1, (h4.2 hu).2⟩

/-- C9: opening a capture proceeds to scan assembly exactly when the
global header's magic number is one of the four recognized byte-order
encodings; any other magic value yields `GLSE_FILEFORMAT_ERROR`, which is
distinct from the `GLSE_FILEIOERR` produced when the file cannot be opened
or its global header cannot be read. -/
theorem magic_number_validation :
    (∀ magic : Nat, isValidMagicNumber magic = true ↔
       (magic = 0xa1b23c4d ∨ magic = 0x4d3cb2a1 ∨ magic = 0xa1b2c3d4 ∨ magic = 0xd4c3b2a1))
    ∧ (∀ (ghdr : PcapGlobalHeader) (records : List PcapRecord) (scan0 : LiDARScan)
         (azChg0 : Nat), isValidMagicNumber ghdr.magic_number = true →
         GetFirstLidarScan (.wellFormed ghdr records) scan0 azChg0 =
           (let mode := determineLiDARTimeScalingType ghdr.version_major ghdr.version_minor
              (records.map PcapRecord.hdr)
            let r := ImplGetNextLidarScan mode scan0 azChg0 records
            (r.1, r.2.1, r.2.2.1, r.2.2.2, mode)))
    ∧ (∀ (ghdr : PcapGlobalHeader) (records : List PcapRecord) (scan0 : LiDARScan)
         (azChg0 : Nat), isValidMagicNumber ghdr.magic_number = false →
         (GetFirstLidarScan (.wellFormed ghdr records) scan0 azChg0).1 = GLSE_FILEFORMAT_ERROR)
    ∧ (∀ (scan0 : LiDARScan) (azChg0 : Nat),
         (GetFirstLidarScan .unopenable scan0 azChg0).1 = GLSE_FILEIOERR
         ∧ (GetFirstLidarScan .truncated scan0 azChg0).1 = GLSE_FILEIOERR)
    ∧ GLSE_FILEFORMAT_ERROR ≠ GLSE_FILEIOERR := by
  refine ⟨?_, ?_, ?_, fun scan0 azChg0 => ⟨rfl, rfl⟩, by decide⟩
  · intro magic
    simp [isValidMagicNumber]
  · intro ghdr records scan0 azChg0 h
    simp only [GetFirstLidarScan, h, if_true]
  · intro ghdr records scan0 azChg0 h
    simp only [GetFirstLidarScan, h, Bool.false_eq_true, if_false]

/-- C9 witness: the standard little-endian magic `0xa1b2c3d4` is accepted
and assembly proceeds (here: succeeding on a one-packet capture), while
magic `0xdeadbeef` is rejected with the format error. -/
theorem magic_number_validation_witness :
    isValidMagicNumber 0xa1b2c3d4 = true
    ∧ (GetFirstLidarScan (.wellFormed sampleGlobalHeader [sampleDataRecord])
        sampleScan0 0).1
      = (ImplGetNextLidarScan (determineLiDARTimeScalingType 2 4
          [sampleDataRecord.hdr]) sampleScan0 0 [sampleDataRecord]).1
    ∧ isValidMagicNumber 0xdeadbeef = false
    ∧ (GetFirstLidarScan (.wellFormed ⟨0xdeadbeef, 2, 4, 0, 0, 65535, 1⟩
        [sampleDataRecord]) sampleScan0 0).1 = GLSE_FILEFORMAT_ERROR := by
  have h2 := magic_number_validation.2.1 sampleGlobalHeader [sampleDataRecord]
    sampleScan0 0 (by decide)
  have h4 := magic_number_validation.2.2.1 ⟨0xdeadbeef, 2, 4, 0, 0, 65535, 1⟩
    [sampleDataRecord] sampleScan0 0 (by decide)
  exact ⟨by decide, by rw [h2]; rfl, by decide, h4⟩

/-- C10: whenever the sensor is not initialized or no scan is pending,
`readNextScan` returns false and leaves both the destination point cloud
and the timestamp out-parameter unchanged. -/
theorem readNextScan_noop_when_not_ready {α : Type} [LinearOrderedField α]
    (P : GeomParams α) (st : VelodyneLidarState) (destination : List (LidarPoint α))
    (timestamp_us : Nat) (h : st.initialized = false ∨ st.pendingScan = false) :
    readNextScan P st destination timestamp_us = (false, st, destination, timestamp_us) := by
  rcases h with h | h <;> simp [readNextScan, h]

/-- C10 witness: an uninitialized sensor state returns false and leaves a
given destination cloud and timestamp untouched. -/
theorem readNextScan_noop_when_not_ready_witness :
    (sampleUninitState.initialized = false ∨ sampleUninitState.pendingScan = false)
    ∧ readNextScan sampleGeomParamsQ sampleUninitState [⟨1, 2, 3, 4⟩] 99
        = (false, sampleUninitState, [⟨1, 2, 3, 4⟩], 99) :=
  ⟨Or.inl rfl,
   readNextScan_noop_when_not_ready sampleGeomParamsQ sampleUninitState [⟨1, 2, 3, 4⟩] 99
     (Or.inl rfl)⟩

/-- A `filterMap` yields at most as many elements as a `filter` by any
predicate that holds wherever the map succeeds. -/
theorem length_filterMap_le_filter {γ β : Type} (l : List γ) (f : γ → Option β)
    (p : γ → Bool) (h : ∀ x ∈ l, (f x).isSome = true → p x = true) :
    (l.filterMap f).length ≤ (l.filter p).length := by
  induction l with
  | nil => simp
  | cons a t ih =>
      have ht : ∀ x ∈ t, (f x).isSome = true → p x = true :=
        fun x hx => h x (List.mem_cons_of_mem _ hx)
      cases hf : f a with
      | some b =>
          have hpa : p a = true := h a (List.mem_cons_self _ _) (by simp [hf])
          simp only [List.filterMap_cons, List.filter_cons, hf, hpa, if_true,
            List.length_cons]
          exact Nat.succ_le_succ (ih ht)
      | none =>
          by_cases hpa : p a = true
          · simp only [List.filterMap_cons, List.filter_cons, hf, hpa, if_true,
              List.length_cons]
            exact le_trans (ih ht) (Nat.le_succ _)
          · simp only [List.filterMap_cons, List.filter_cons, hf,
              Bool.not_eq_true] at hpa ⊢
            rw [hpa]
            exact ih ht

/-- Pointwise length bounds on the pieces of a `flatMap` bound its total
length. -/
theorem length_flatMap_le_flatMap {γ δ ε : Type} (l : List γ) (g : γ → List δ)
    (k : γ → List ε) (h : ∀ x ∈ l, (g x).length ≤ (k x).length) :
    (l.flatMap g).length ≤ (l.flatMap k).length := by
  induction l with
  | nil => simp
  | cons a t ih =>
      simp only [List.flatMap_cons, List.length_append]
      exact Nat.add_le_add (h a (List.mem_cons_self _ _))
        (ih fun x hx => h x (List.mem_cons_of_mem _ hx))

/-- C7: a zero range tick never produces a point; a derived range above
the configured ceiling never produces a point; the ceiling configured by
`configure` is clamped to at least 0.01; and consequently the output
point cloud never holds more points than there are non-zero-range beam
entries across all firings of the scan. -/
theorem reconstructPoint_rejection_and_cloud_bound :
    (∀ (α : Type) [inst : LinearOrderedField α] (P : GeomParams α) (f : DataBlock)
       (beam : Nat), (f.v_laser.getD beam ⟨0, 0⟩).range = 0 →
       reconstructPoint P f beam = none)
    ∧ (∀ (α : Type) [inst : LinearOrderedField α] (P : GeomParams α) (f : DataBlock)
         (beam : Nat),
         P.maxRangeMeters < ((f.v_laser.getD beam ⟨0, 0⟩).range : α) * P.metersPerTick →
         reconstructPoint P f beam = none)
    ∧ (∀ (α : Type) [inst : LinearOrderedField α] (v : α), 1 / 100 ≤ configureMaxRange v)
    ∧ (∀ (α : Type) [inst : LinearOrderedField α] (P : GeomParams α)
         (config : LiDARConfiguration) (firings : Nat → DataBlock),
         (populateGeometry P config firings).length ≤ nonZeroRangeBeamCount config firings) := by
  refine ⟨?_, ?_, ?_, ?_⟩
  · intro α inst P f beam h
    simp only [reconstructPoint]
    rw [if_pos h]
  · intro α inst P f beam h
    simp only [reconstructPoint]
    by_cases hz : (f.v_laser.getD beam ⟨0, 0⟩).range = 0
    · rw [if_pos hz]
    · rw [if_neg hz, if_pos h]
  · intro α inst v
    exact le_max_left _ _
  · intro α inst P config firings
    unfold populateGeometry nonZeroRangeBeamCount
    refine length_flatMap_le_flatMap _ _ _ ?_
    intro block _
    refine length_flatMap_le_flatMap _ _ _ ?_
    intro firing _
    refine length_filterMap_le_filter _ _ _ ?_
    intro beam _ hsome
    by_cases hz : ((firings (block * config.firingSequencesPerBlock + firing)).v_laser.getD
        beam ⟨0, 0⟩).range = 0
    · simp only [reconstructPoint] at hsome
      rw [if_pos hz] at hsome
      simp at hsome
    · exact decide_eq_true hz

/-- C7 witness: at `ℚ` with the VLP16-style parameters, range tick 0 is
rejected, a range of 200 m against the 120 m ceiling is rejected, the
clamp keeps a ceiling configured as 0 at 0.01, and a 1-block scan keeps
the point count below its non-zero-range beam count. -/
theorem reconstructPoint_rejection_and_cloud_bound_witness :
    ((⟨0, 0, [⟨0, 5⟩]⟩ : DataBlock).v_laser.getD 0 ⟨0, 0⟩).range = 0
    ∧ reconstructPoint sampleGeomParamsQ ⟨0, 0, [⟨0, 5⟩]⟩ 0 = none
    ∧ sampleGeomParamsQ.maxRangeMeters
        < (((⟨0, 0, [⟨100000, 5⟩]⟩ : DataBlock).v_laser.getD 0 ⟨0, 0⟩).range : ℚ)
            * sampleGeomParamsQ.metersPerTick
    ∧ reconstructPoint sampleGeomParamsQ ⟨0, 0, [⟨100000, 5⟩]⟩ 0 = none
    ∧ (1 : ℚ) / 100 ≤ configureMaxRange (0 : ℚ)
    ∧ (populateGeometry sampleGeomParamsQ ⟨1, 1, 2⟩
          (fun _ => ⟨0, 0, [⟨500, 7⟩, ⟨0, 9⟩]⟩)).length
        ≤ nonZeroRangeBeamCount ⟨1, 1, 2⟩ (fun _ => ⟨0, 0, [⟨500, 7⟩, ⟨0, 9⟩]⟩) := by
  have hlt : sampleGeomParamsQ.maxRangeMeters
      < (((⟨0, 0, [⟨100000, 5⟩]⟩ : DataBlock).v_laser.getD 0 ⟨0, 0⟩).range : ℚ)
          * sampleGeomParamsQ.metersPerTick := by
    norm_num [sampleGeomParamsQ]
  exact ⟨rfl,
    reconstructPoint_rejection_and_cloud_bound.1 ℚ sampleGeomParamsQ _ 0 rfl,
    hlt,
    reconstructPoint_rejection_and_cloud_bound.2.1 ℚ sampleGeomParamsQ _ 0 hlt,
    reconstructPoint_rejection_and_cloud_bound.2.2.1 ℚ 0,
    reconstructPoint_rejection_and_cloud_bound.2.2.2 ℚ sampleGeomParamsQ ⟨1, 1, 2⟩ _⟩

/-- C6: for every accepted firing and beam, the reconstructed point (with
the real-valued tick constant `2π/36000` that `kRadiansPerTick` rounds)
satisfies `x = range·cos φ·cos θ`, `y = −range·cos φ·sin θ`,
`z = range·sin φ`, `intensity = reflectivity/255`, where
`θ = azimuthTick·(2π/36000) + spinRate·beamIndex·microsecondsPerLaserFiring`
and `φ` is the beam's calibration angle; and the synthetic HDL32 firing
with azimuth tick 0, beam-0 vertical angle 0, range tick 500 and
`metersPerTick = 0.002` reconstructs exactly to `(1, 0, 0)`. -/
theorem reconstructPoint_formulas :
    (∀ (mpt maxR spin usLaser : ℝ) (vertAngles : Nat → ℝ) (f : DataBlock) (beam : Nat)
       (p : LidarPoint ℝ),
       reconstructPoint ⟨mpt, maxR, spin, usLaser, 2 * Real.pi / 36000, vertAngles,
         Real.cos, Real.sin⟩ f beam = some p →
       p.x = ((f.v_laser.getD beam ⟨0, 0⟩).range : ℝ) * mpt
               * Real.cos (vertAngles beam)
               * Real.cos ((f.azimuth : ℝ) * (2 * Real.pi / 36000)
                   + spin * (beam : ℝ) * usLaser)
       ∧ p.y = -(((f.v_laser.getD beam ⟨0, 0⟩).range : ℝ) * mpt
               * Real.cos (vertAngles beam)
               * Real.sin ((f.azimuth : ℝ) * (2 * Real.pi / 36000)
                   + spin * (beam : ℝ) * usLaser))
       ∧ p.z = ((f.v_laser.getD beam ⟨0, 0⟩).range : ℝ) * mpt
               * Real.sin (vertAngles beam)
       ∧ p.intensity = ((f.v_laser.getD beam ⟨0, 0⟩).refl : ℝ) / 255)
    ∧ reconstructPoint (⟨0.002, 120, 600 * (1 / 60 * (2 * Real.pi) / 1000000), 1.152,
        2 * Real.pi / 36000, fun _ => 0, Real.cos, Real.sin⟩ : GeomParams ℝ)
        ⟨0xeeff, 0, [⟨500, 100⟩]⟩ 0 = some ⟨1, 0, 0, 100 / 255⟩ := by
  constructor
  · intro mpt maxR spin usLaser vertAngles f beam p h
    simp only [reconstructPoint] at h
    split_ifs at h with h1 h2
    rw [Option.some_inj] at h
    exact h ▸ ⟨rfl, rfl, rfl, rfl⟩
  · simp only [reconstructPoint]
    rw [if_neg (by norm_num), if_neg (by norm_num)]
    have hz : ((⟨0xeeff, 0, [⟨500, 100⟩]⟩ : DataBlock).azimuth : ℝ)
        * (2 * Real.pi / 36000)
        + 600 * (1 / 60 * (2 * Real.pi) / 1000000) * ((0 : Nat) : ℝ) * 1.152 = 0 := by
      norm_num
    rw [Option.some_inj]
    refine LidarPoint.mk.injEq _ _ _ _ _ _ _ _ ▸ ?_
    norm_num [hz, Real.cos_zero, Real.sin_zero]

/-- C6 witness: the synthetic HDL32 firing is accepted by the
reconstruction, and applying the general formula to it yields the x
coordinate `1`. -/
theorem reconstructPoint_formulas_witness :
    reconstructPoint (⟨0.002, 120, 600 * (1 / 60 * (2 * Real.pi) / 1000000), 1.152,
        2 * Real.pi / 36000, fun _ => 0, Real.cos, Real.sin⟩ : GeomParams ℝ)
        ⟨0xeeff, 0, [⟨500, 100⟩]⟩ 0 = some ⟨1, 0, 0, 100 / 255⟩
    ∧ (⟨1, 0, 0, 100 / 255⟩ : LidarPoint ℝ).x
        = ((((⟨0xeeff, 0, [⟨500, 100⟩]⟩ : DataBlock).v_laser.getD 0 ⟨0, 0⟩).range : ℝ)
            * 0.002 * Real.cos ((fun _ => (0 : ℝ)) 0)
            * Real.cos (((⟨0xeeff, 0, [⟨500, 100⟩]⟩ : DataBlock).azimuth : ℝ)
                * (2 * Real.pi / 36000)
                + 600 * (1 / 60 * (2 * Real.pi) / 1000000) * ((0 : Nat) : ℝ) * 1.152)) :=
  ⟨reconstructPoint_formulas.2,
   (reconstructPoint_formulas.1 0.002 120 (600 * (1 / 60 * (2 * Real.pi) / 1000000)) 1.152
      (fun _ => 0) ⟨0xeeff, 0, [⟨500, 100⟩]⟩ 0 ⟨1, 0, 0, 100 / 255⟩
      reconstructPoint_formulas.2).1⟩
